import Mathlib

/-!
Shallow embedding of the visit-request core of the SMASMI2211 visitor
management backend.

The repository carries two parallel implementations of the same design:
a FastAPI backend under `app/` (endpoints in `app/api`, models in
`app/models`) and a Django backend under `apps/` (views in
`apps/visitors/views.py`).  Namespace `VMS` embeds the FastAPI backend;
namespace `Dj` embeds the Django views cited by the claims.

Conventions of the embedding:
* Database rows are records; the database session is an explicit `Db`
  value threaded through every operation.
* Each HTTP endpoint becomes a function `... → Except ApiError α × Db`.
  Raising `HTTPException` before `db.commit()` aborts the transaction,
  so every error branch returns the caller's database unchanged; the
  one exception (`approve_visit_request`'s visitor lookup, which runs
  after the commit) returns the committed state.
* `datetime.utcnow()` / `datetime.now().date()` are passed in as
  explicit `now` / `today` naturals.
* `generate_qr_code` is imported by `app/api/resident.py` from
  `app.utils.helpers` but is not defined anywhere in the repository;
  the embedding abstracts it as an arbitrary function
  `g : String → String` applied to the exact payload string built at
  the call sites.
-/

namespace VMS

inductive VisitStatus where
  | pending
  | approved
  | denied
  | completed
  | cancelled
deriving DecidableEq, Repr

structure Visitor where
  id : Nat
  name : String
  phone_number : String
  email : Option String
  id_number : Option String
  purpose : String
deriving DecidableEq, Repr

structure User where
  id : Nat
  role : String
  is_approved : Bool
  is_active : Bool
  full_name : String
  email : Option String
deriving DecidableEq, Repr

/-- `VisitRequest` row, with the columns the `app/api` endpoints read and
write (`status`, lifecycle timestamps, `qr_code`, walk-in bookkeeping). -/
structure VisitRequest where
  id : Nat
  visitor_id : Nat
  resident_id : Nat
  visit_date : Nat
  visit_time : Nat
  purpose : String
  status : VisitStatus
  qr_code : Option String
  approved_at : Option Nat
  denied_at : Option Nat
  completed_at : Option Nat
  cancelled_at : Option Nat
  completed_by : Option Nat
  is_walk_in : Bool
  recorded_by : Option Nat
deriving DecidableEq, Repr

/-- `Blacklist` row (`app/models/blacklist.py` together with the columns
the `app/api` endpoints use: the pair key is `(visitor_phone, resident_id)`). -/
structure Blacklist where
  id : Nat
  visitor_phone : String
  visitor_name : String
  resident_id : Nat
  reason : String
  blacklisted_by : Nat
  is_permanent : Bool
  expires_at : Option Nat
  is_active : Bool
deriving DecidableEq, Repr

structure Notification where
  id : Nat
  user_id : Nat
  title : String
  message : String
  notification_type : String
  is_read : Bool
deriving DecidableEq, Repr

structure Db where
  users : List User
  visitors : List Visitor
  visit_requests : List VisitRequest
  blacklist : List Blacklist
  notifications : List Notification
  next_visitor_id : Nat
  next_request_id : Nat
  next_blacklist_id : Nat
  next_notification_id : Nat
deriving DecidableEq, Repr

/-- `Blacklist.is_expired` property of `app/models/blacklist.py`:
a non-permanent entry with an expiry stamp is expired once `now`
has passed it. -/
def Blacklist.is_expired (now : Nat) (b : Blacklist) : Bool :=
  if !b.is_permanent then
    match b.expires_at with
    | some e => decide (now > e)
    | none => false
  else false

/-- `Blacklist.is_valid` property of `app/models/blacklist.py`:
active and not expired. -/
def Blacklist.is_valid (now : Nat) (b : Blacklist) : Bool :=
  b.is_active && !(b.is_expired now)

/-- `HTTPException` classified by status code, with the `detail` string. -/
inductive ApiError where
  | forbidden (detail : String)
  | notFound (detail : String)
  | badRequest (detail : String)
  | internalError (detail : String)
deriving DecidableEq, Repr

/-! Query predicates, one per `db.query(...).filter(...)` in the cited
endpoints. -/

/-- Blacklist gate used by all three creation paths: active entry for the
exact `(visitor phone, resident)` pair; expiry is not consulted. -/
def blacklist_gate (phone : String) (resident_id : Nat) (b : Blacklist) : Bool :=
  decide (b.visitor_phone = phone ∧ b.resident_id = resident_id ∧ b.is_active = true)

def visitor_by_phone (phone : String) (v : Visitor) : Bool :=
  decide (v.phone_number = phone)

def visitor_by_id (visitor_id : Nat) (v : Visitor) : Bool :=
  decide (v.id = visitor_id)

def visitor_owns (visitor_id : Nat) (phone : String) (v : Visitor) : Bool :=
  decide (v.id = visitor_id ∧ v.phone_number = phone)

def user_by_id (user_id : Nat) (u : User) : Bool :=
  decide (u.id = user_id)

def approved_resident (resident_id : Nat) (u : User) : Bool :=
  decide (u.id = resident_id ∧ u.role = "resident" ∧ u.is_approved = true)

def approved_security (u : User) : Bool :=
  decide (u.role = "security" ∧ u.is_approved = true)

def req_owned (request_id resident_id : Nat) (vr : VisitRequest) : Bool :=
  decide (vr.id = request_id ∧ vr.resident_id = resident_id)

def req_by_id (request_id : Nat) (vr : VisitRequest) : Bool :=
  decide (vr.id = request_id)

/-- Duplicate-request guard of `visitor.py`: same `(visitor, resident,
visit_date)` tuple in status `pending` (and only `pending`). -/
def dup_pending (visitor_id resident_id visit_date : Nat) (vr : VisitRequest) : Bool :=
  decide (vr.visitor_id = visitor_id ∧ vr.resident_id = resident_id ∧
          vr.visit_date = visit_date ∧ vr.status = VisitStatus.pending)

/-- Lookup used by `verify_visitor_qr`: the row must carry the token and
still be `approved`. -/
def approved_by_qr (qr : String) (vr : VisitRequest) : Bool :=
  decide (vr.qr_code = some qr ∧ vr.status = VisitStatus.approved)

def blacklist_by_id (blacklist_id : Nat) (b : Blacklist) : Bool :=
  decide (b.id = blacklist_id)

/-- ORM in-place update of the row with primary key `request_id`. -/
def update_request (l : List VisitRequest) (request_id : Nat)
    (f : VisitRequest → VisitRequest) : List VisitRequest :=
  l.map (fun vr => if vr.id = request_id then f vr else vr)

/-- `create_notification`: insert one Notification row. -/
def add_notification (db : Db) (uid : Nat) (title message ntype : String) : Db :=
  { db with
    notifications := db.notifications ++
      [{ id := db.next_notification_id, user_id := uid, title := title,
         message := message, notification_type := ntype, is_read := false }],
    next_notification_id := db.next_notification_id + 1 }

def notify_all (db : Db) (uids : List Nat) (title message ntype : String) : Db :=
  uids.foldl (fun d uid => add_notification d uid title message ntype) db

/-- The payload handed to `generate_qr_code` at both issuance sites:
the f-string `visit_<visitor_id>_<resident_id>_<timestamp>`. -/
def qr_payload (visitor_id resident_id ts : Nat) : String :=
  "visit_" ++ toString visitor_id ++ "_" ++ toString resident_id ++ "_" ++ toString ts

/-- Visitor dedup by phone shared by `register_visitor` and
`record_walk_in_entry`: reuse the row with this phone, else insert. -/
def resolve_visitor (db : Db) (name phone : String)
    (email id_number : Option String) (purpose : String) : Nat × Db :=
  match db.visitors.find? (visitor_by_phone phone) with
  | some v => (v.id, db)
  | none =>
    (db.next_visitor_id,
     { db with
       visitors := db.visitors ++
         [{ id := db.next_visitor_id, name := name, phone_number := phone,
            email := email, id_number := id_number, purpose := purpose }],
       next_visitor_id := db.next_visitor_id + 1 })

/-- Body of `POST /resident/register-visitor`
(`app/api/resident.py`, `register_visitor`). -/
structure VisitorData where
  name : String
  phone_number : String
  email : Option String
  id_number : Option String
  purpose : String
  visit_date : Nat
  visit_time : Nat
deriving DecidableEq, Repr

def register_visitor (g : String → String) (now : Nat) (db : Db) (u : User)
    (d : VisitorData) : Except ApiError VisitRequest × Db :=
  if u.role = "resident" ∧ u.is_approved = true then
    match db.blacklist.find? (blacklist_gate d.phone_number u.id) with
    | some _ =>
      (.error (.badRequest "This visitor is blacklisted and cannot be registered."), db)
    | none =>
      let p := resolve_visitor db d.name d.phone_number d.email d.id_number d.purpose
      let vr : VisitRequest :=
        { id := p.2.next_request_id, visitor_id := p.1, resident_id := u.id,
          visit_date := d.visit_date, visit_time := d.visit_time, purpose := d.purpose,
          status := .approved, qr_code := some (g (qr_payload p.1 u.id now)),
          approved_at := some now, denied_at := none, completed_at := none,
          cancelled_at := none, completed_by := none, is_walk_in := false,
          recorded_by := none }
      let db2 :=
        { p.2 with
          visit_requests := p.2.visit_requests ++ [vr],
          next_request_id := p.2.next_request_id + 1 }
      let db3 := notify_all db2 ((db2.users.filter approved_security).map User.id)
        "New Pre-Approved Visitor"
        ("Visitor " ++ d.name ++ " has been pre-approved by resident " ++ u.full_name)
        "visitor_approved"
      (.ok vr, db3)
  else
    (.error (.forbidden "Access denied. Only approved residents can register visitors."), db)

/-- Body of `POST /visitor/register`
(`app/api/visitor.py`, `register_visit_request`). -/
structure RegistrationData where
  name : String
  phone_number : String
  email : Option String
  id_number : Option String
  purpose : String
  resident_id : Nat
  visit_date : Nat
  visit_time : Nat
deriving DecidableEq, Repr

/-- In-place refresh of an existing visitor's contact fields when the
registration supplies them. -/
def update_contacts (v : Visitor) (d : RegistrationData) : Visitor :=
  { v with
    name := if d.name ≠ "" then d.name else v.name,
    email := match d.email with | some e => some e | none => v.email,
    id_number := match d.id_number with | some i => some i | none => v.id_number }

def register_visit_request (db : Db) (d : RegistrationData) :
    Except ApiError VisitRequest × Db :=
  match db.users.find? (approved_resident d.resident_id) with
  | none => (.error (.notFound "Resident not found or not approved."), db)
  | some resident =>
    match db.blacklist.find? (blacklist_gate d.phone_number d.resident_id) with
    | some _ =>
      (.error (.badRequest "You are blacklisted and cannot request a visit to this resident."), db)
    | none =>
      let p : Nat × Db :=
        match db.visitors.find? (visitor_by_phone d.phone_number) with
        | none =>
          (db.next_visitor_id,
           { db with
             visitors := db.visitors ++
               [{ id := db.next_visitor_id, name := d.name,
                  phone_number := d.phone_number, email := d.email,
                  id_number := d.id_number, purpose := d.purpose }],
             next_visitor_id := db.next_visitor_id + 1 })
        | some v =>
          (v.id,
           { db with
             visitors := db.visitors.map
               (fun w => if w.id = v.id then update_contacts w d else w) })
      match p.2.visit_requests.find? (dup_pending p.1 d.resident_id d.visit_date) with
      | some _ =>
        (.error (.badRequest "You already have a pending request for this date with this resident."), db)
      | none =>
        let vr : VisitRequest :=
          { id := p.2.next_request_id, visitor_id := p.1, resident_id := d.resident_id,
            visit_date := d.visit_date, visit_time := d.visit_time, purpose := d.purpose,
            status := .pending, qr_code := none, approved_at := none, denied_at := none,
            completed_at := none, cancelled_at := none, completed_by := none,
            is_walk_in := false, recorded_by := none }
        let db2 :=
          { p.2 with
            visit_requests := p.2.visit_requests ++ [vr],
            next_request_id := p.2.next_request_id + 1 }
        let db3 := add_notification db2 d.resident_id "New Visit Request"
          ("New visit request from " ++ d.name) "visit_request"
        let _ := resident
        (.ok vr, db3)

/-- Body of `POST /security/record-entry`
(`app/api/security.py`, `record_walk_in_entry`). -/
structure WalkInData where
  name : String
  phone_number : String
  email : Option String
  id_number : Option String
  purpose : String
  resident_id : Nat
deriving DecidableEq, Repr

def record_walk_in_entry (now_date now_time : Nat) (db : Db) (u : User)
    (d : WalkInData) : Except ApiError VisitRequest × Db :=
  if u.role = "security" ∧ u.is_approved = true then
    match db.blacklist.find? (blacklist_gate d.phone_number d.resident_id) with
    | some _ =>
      (.error (.badRequest "This visitor is blacklisted for this resident."), db)
    | none =>
      match db.users.find? (approved_resident d.resident_id) with
      | none => (.error (.notFound "Resident not found or not approved."), db)
      | some _ =>
        let p := resolve_visitor db d.name d.phone_number d.email d.id_number d.purpose
        let vr : VisitRequest :=
          { id := p.2.next_request_id, visitor_id := p.1, resident_id := d.resident_id,
            visit_date := now_date, visit_time := now_time, purpose := d.purpose,
            status := .pending, qr_code := none, approved_at := none, denied_at := none,
            completed_at := none, cancelled_at := none, completed_by := none,
            is_walk_in := true, recorded_by := some u.id }
        let db2 :=
          { p.2 with
            visit_requests := p.2.visit_requests ++ [vr],
            next_request_id := p.2.next_request_id + 1 }
        let db3 := add_notification db2 d.resident_id "Walk-in Visitor Request"
          ("Walk-in visitor " ++ d.name ++ " is requesting to see you. Please approve or deny.")
          "walk_in_request"
        (.ok vr, db3)
  else (.error (.forbidden "Access denied."), db)

/-- Body of `PUT /resident/approve-request/{request_id}`
(`app/api/resident.py`, `approve_visit_request`).  The visitor lookup that
feeds the notification text runs after `db.commit()`, so its failure
(a `None` dereference) leaves the committed transition in place. -/
def approve_visit_request (g : String → String) (now : Nat) (db : Db) (u : User)
    (request_id : Nat) : Except ApiError String × Db :=
  if u.role = "resident" ∧ u.is_approved = true then
    match db.visit_requests.find? (req_owned request_id u.id) with
    | none => (.error (.notFound "Visit request not found."), db)
    | some vr =>
      if vr.status = .pending then
        let db2 :=
          { db with
            visit_requests := update_request db.visit_requests request_id
              (fun w =>
                { w with
                  status := .approved, approved_at := some now,
                  qr_code := some (g (qr_payload w.visitor_id u.id now)) }) }
        match db2.visitors.find? (visitor_by_id vr.visitor_id) with
        | none => (.error (.internalError "visitor record missing"), db2)
        | some visitor =>
          let db3 := notify_all db2 ((db2.users.filter approved_security).map User.id)
            "Visit Request Approved"
            ("Visitor " ++ visitor.name ++ " has been approved by resident " ++ u.full_name)
            "visitor_approved"
          (.ok "Visit request approved successfully", db3)
      else (.error (.badRequest "This request has already been processed."), db)
  else (.error (.forbidden "Access denied."), db)

/-- Body of `PUT /resident/deny-request/{request_id}`
(`app/api/resident.py`, `deny_visit_request`).  The blacklist insert is
unconditional: no lookup for an existing entry precedes `db.add`. -/
def deny_visit_request (now : Nat) (db : Db) (u : User) (request_id : Nat) :
    Except ApiError String × Db :=
  if u.role = "resident" ∧ u.is_approved = true then
    match db.visit_requests.find? (req_owned request_id u.id) with
    | none => (.error (.notFound "Visit request not found."), db)
    | some vr =>
      if vr.status = .pending then
        match db.visitors.find? (visitor_by_id vr.visitor_id) with
        | none => (.error (.internalError "visitor record missing"), db)
        | some visitor =>
          let entry : Blacklist :=
            { id := db.next_blacklist_id, visitor_phone := visitor.phone_number,
              visitor_name := visitor.name, resident_id := u.id,
              reason := "Visit request denied by resident", blacklisted_by := u.id,
              is_permanent := true, expires_at := none, is_active := true }
          (.ok "Visit request denied and visitor blacklisted",
           { db with
             visit_requests := update_request db.visit_requests request_id
               (fun w => { w with status := .denied, denied_at := some now }),
             blacklist := db.blacklist ++ [entry],
             next_blacklist_id := db.next_blacklist_id + 1 })
      else (.error (.badRequest "This request has already been processed."), db)
  else (.error (.forbidden "Access denied."), db)

/-- Body of `POST /visitor/cancel-request/{request_id}`
(`app/api/visitor.py`, `cancel_visit_request`): the caller proves identity
by the visitor's phone number. -/
def cancel_visit_request (now : Nat) (db : Db) (request_id : Nat)
    (phone_number : String) : Except ApiError String × Db :=
  match db.visit_requests.find? (req_by_id request_id) with
  | none => (.error (.notFound "Visit request not found."), db)
  | some vr =>
    match db.visitors.find? (visitor_owns vr.visitor_id phone_number) with
    | none => (.error (.forbidden "You are not authorized to cancel this request."), db)
    | some visitor =>
      if vr.status = .pending then
        let db2 :=
          { db with
            visit_requests := update_request db.visit_requests request_id
              (fun w => { w with status := .cancelled, cancelled_at := some now }) }
        let db3 := add_notification db2 vr.resident_id "Visit Request Cancelled"
          ("Visit request from " ++ visitor.name ++ " has been cancelled")
          "visit_cancelled"
        (.ok "Visit request cancelled successfully", db3)
      else (.error (.badRequest "Only pending requests can be cancelled."), db)

/-- Body of `PUT /security/complete-visit/{request_id}`
(`app/api/security.py`, `complete_visit`). -/
def complete_visit (now : Nat) (db : Db) (u : User) (request_id : Nat) :
    Except ApiError String × Db :=
  if u.role = "security" ∧ u.is_approved = true then
    match db.visit_requests.find? (req_by_id request_id) with
    | none => (.error (.notFound "Visit request not found."), db)
    | some vr =>
      if vr.status = .approved then
        (.ok "Visit marked as completed",
         { db with
           visit_requests := update_request db.visit_requests request_id
             (fun w =>
               { w with
                 status := .completed, completed_at := some now,
                 completed_by := some u.id }) })
      else (.error (.badRequest "Visit must be approved before it can be completed."), db)
  else (.error (.forbidden "Access denied."), db)

/-- Successful verification returns the bound visitor, resident and
request rows, as fetched by `verify_visitor_qr`. -/
structure VerifiedVisit where
  visitor : Option Visitor
  resident : Option User
  visit_request : VisitRequest
deriving DecidableEq, Repr

/-- Body of `GET /security/verify-visitor/{qr_code}`
(`app/api/security.py`, `verify_visitor_qr`): pure reads, no writes. -/
def verify_visitor_qr (today : Nat) (db : Db) (u : User) (qr : String) :
    Except ApiError VerifiedVisit × Db :=
  if u.role = "security" ∧ u.is_approved = true then
    match db.visit_requests.find? (approved_by_qr qr) with
    | none => (.error (.notFound "Invalid QR code or visit not approved."), db)
    | some vr =>
      if vr.visit_date = today then
        (.ok { visitor := db.visitors.find? (visitor_by_id vr.visitor_id),
               resident := db.users.find? (user_by_id vr.resident_id),
               visit_request := vr }, db)
      else (.error (.badRequest "This visit is not scheduled for today."), db)
  else (.error (.forbidden "Access denied."), db)

/-- Body of `DELETE /admin/blacklist/{blacklist_id}`
(`app/api/admin.py`, `remove_from_blacklist`): the row is physically
deleted with `db.delete`.  The `require_role("admin")` dependency is the
role gate. -/
def remove_from_blacklist (db : Db) (u : User) (blacklist_id : Nat) :
    Except ApiError String × Db :=
  if u.role = "admin" then
    match db.blacklist.find? (blacklist_by_id blacklist_id) with
    | none => (.error (.notFound "Blacklist entry not found"), db)
    | some _ =>
      (.ok "Visitor removed from blacklist successfully",
       { db with
         blacklist := db.blacklist.filter
           (fun b => !(blacklist_by_id blacklist_id b)) })
  else (.error (.forbidden "Access denied"), db)

end VMS

namespace Dj

/-!
Embedding of the Django views cited by the claims
(`apps/visitors/views.py`): `deny_visit_request`, `record_entry`,
`record_exit` and `remove_from_blacklist`, over the `VisitRequest` and
`BlacklistedVisitor` models of `apps/visitors/models.py`.
-/

structure DjUser where
  id : Nat
  user_type : String
deriving DecidableEq, Repr

structure DjVisitRequest where
  id : Nat
  visitor : Nat
  resident : Nat
  status : VMS.VisitStatus
  approval_date : Option Nat
  entry_time : Option Nat
  exit_time : Option Nat
  security_personnel : Option Nat
deriving DecidableEq, Repr

/-- `BlacklistedVisitor` row: `unique_together (visitor, resident)`,
no active/expiry columns. -/
structure DjBlacklisted where
  id : Nat
  visitor : Nat
  resident : Nat
  reason : String
deriving DecidableEq, Repr

structure DjNotification where
  id : Nat
  user : Nat
  title : String
  message : String
  notification_type : String
deriving DecidableEq, Repr

structure DjState where
  visit_requests : List DjVisitRequest
  blacklisted : List DjBlacklisted
  notifications : List DjNotification
  next_blacklist_id : Nat
  next_notification_id : Nat
deriving DecidableEq, Repr

inductive DjError where
  | notFound
  | forbidden (detail : String)
  | badRequest (detail : String)
deriving DecidableEq, Repr

def vr_by_pk (pk : Nat) (vr : DjVisitRequest) : Bool := decide (vr.id = pk)

def bl_by_pk (pk : Nat) (b : DjBlacklisted) : Bool := decide (b.id = pk)

def bl_pair (visitor resident : Nat) (b : DjBlacklisted) : Bool :=
  decide (b.visitor = visitor ∧ b.resident = resident)

def update_vr (l : List DjVisitRequest) (pk : Nat)
    (f : DjVisitRequest → DjVisitRequest) : List DjVisitRequest :=
  l.map (fun vr => if vr.id = pk then f vr else vr)

/-- `deny_visit_request` (`apps/visitors/views.py`): transition to
`denied`, then `BlacklistedVisitor.objects.get_or_create` on the
`(visitor, resident)` pair with the supplied reason as a default —
an existing entry is reused unchanged. -/
def deny_visit_request (st : DjState) (u : DjUser) (pk : Nat)
    (reason_arg : Option String) : Except DjError Unit × DjState :=
  match st.visit_requests.find? (vr_by_pk pk) with
  | none => (.error .notFound, st)
  | some vr =>
    if u.user_type = "resident" ∧ vr.resident ≠ u.id then
      (.error (.forbidden "You can only deny your own visit requests"), st)
    else if vr.status ≠ .pending then
      (.error (.badRequest "Visit request is not pending"), st)
    else
      let st1 :=
        { st with
          visit_requests := update_vr st.visit_requests pk
            (fun w => { w with status := .denied }) }
      let reason := reason_arg.getD "Visit request denied"
      match st1.blacklisted.find? (bl_pair vr.visitor vr.resident) with
      | some _ => (.ok (), st1)
      | none =>
        (.ok (),
         { st1 with
           blacklisted := st1.blacklisted ++
             [{ id := st1.next_blacklist_id, visitor := vr.visitor,
                resident := vr.resident, reason := reason }],
           next_blacklist_id := st1.next_blacklist_id + 1 })

/-- `record_entry` (`apps/visitors/views.py`): requires `approved`
status only; a previously recorded `entry_time` is overwritten. -/
def record_entry (now : Nat) (st : DjState) (u : DjUser) (pk : Nat) :
    Except DjError Unit × DjState :=
  match st.visit_requests.find? (vr_by_pk pk) with
  | none => (.error .notFound, st)
  | some vr =>
    if vr.status ≠ .approved then
      (.error (.badRequest "Visit request must be approved first"), st)
    else
      (.ok (),
       { st with
         visit_requests := update_vr st.visit_requests pk
           (fun w =>
             { w with entry_time := some now, security_personnel := some u.id }) })

/-- `record_exit` (`apps/visitors/views.py`): requires a recorded entry
and no recorded exit. -/
def record_exit (now : Nat) (st : DjState) (pk : Nat) :
    Except DjError Unit × DjState :=
  match st.visit_requests.find? (vr_by_pk pk) with
  | none => (.error .notFound, st)
  | some vr =>
    if vr.entry_time = none then
      (.error (.badRequest "Visitor must have entered first"), st)
    else if vr.exit_time ≠ none then
      (.error (.badRequest "Exit time already recorded"), st)
    else
      (.ok (),
       { st with
         visit_requests := update_vr st.visit_requests pk
           (fun w => { w with exit_time := some now }) })

/-- `remove_from_blacklist` (`apps/visitors/views.py`): the row is
physically deleted with `blacklisted_visitor.delete()`. -/
def remove_from_blacklist (st : DjState) (u : DjUser) (pk : Nat) :
    Except DjError Unit × DjState :=
  match st.blacklisted.find? (bl_by_pk pk) with
  | none => (.error .notFound, st)
  | some b =>
    if u.user_type = "resident" ∧ b.resident ≠ u.id then
      (.error (.forbidden "You can only remove visitors from your own blacklist"), st)
    else
      (.ok (), { st with blacklisted := st.blacklisted.filter (fun e => !(bl_by_pk pk e)) })

end Dj

namespace VMS

/-! Concrete fixtures used by witnesses and counterexamples. -/

def resident1 : User :=
  { id := 1, role := "resident", is_approved := true, is_active := true,
    full_name := "Alice R", email := some "alice@example.com" }

def security1 : User :=
  { id := 2, role := "security", is_approved := true, is_active := true,
    full_name := "Sam S", email := none }

def admin1 : User :=
  { id := 3, role := "admin", is_approved := true, is_active := true,
    full_name := "Ada A", email := none }

def visitor1 : Visitor :=
  { id := 10, name := "Jane", phone_number := "0700", email := none,
    id_number := none, purpose := "delivery" }

def reqApproved : VisitRequest :=
  { id := 100, visitor_id := 10, resident_id := 1, visit_date := 50, visit_time := 9,
    purpose := "delivery", status := .approved, qr_code := some "T1",
    approved_at := some 40, denied_at := none, completed_at := none,
    cancelled_at := none, completed_by := none, is_walk_in := false,
    recorded_by := none }

def dbA : Db :=
  { users := [resident1, security1, admin1], visitors := [visitor1],
    visit_requests := [reqApproved], blacklist := [], notifications := [],
    next_visitor_id := 11, next_request_id := 101, next_blacklist_id := 1,
    next_notification_id := 1 }

def reqPending (i date : Nat) : VisitRequest :=
  { id := i, visitor_id := 10, resident_id := 1, visit_date := date, visit_time := 9,
    purpose := "delivery", status := .pending, qr_code := none,
    approved_at := none, denied_at := none, completed_at := none,
    cancelled_at := none, completed_by := none, is_walk_in := false,
    recorded_by := none }

def dbC2 : Db :=
  { users := [resident1, security1], visitors := [visitor1],
    visit_requests := [reqPending 100 50, reqPending 101 51], blacklist := [],
    notifications := [], next_visitor_id := 11, next_request_id := 102,
    next_blacklist_id := 1, next_notification_id := 1 }

/-- An `is_active` entry whose time bound has already lapsed. -/
def expiredEntry : Blacklist :=
  { id := 1, visitor_phone := "0700", visitor_name := "Jane", resident_id := 1,
    reason := "spam", blacklisted_by := 1, is_permanent := false,
    expires_at := some 10, is_active := true }

def dbC3 : Db :=
  { users := [resident1, security1], visitors := [visitor1], visit_requests := [],
    blacklist := [expiredEntry], notifications := [], next_visitor_id := 11,
    next_request_id := 101, next_blacklist_id := 2, next_notification_id := 1 }

def regJane : RegistrationData :=
  { name := "Jane", phone_number := "0700", email := none, id_number := none,
    purpose := "delivery", resident_id := 1, visit_date := 50, visit_time := 9 }

def walkJane : WalkInData :=
  { name := "Jane", phone_number := "0700", email := none, id_number := none,
    purpose := "delivery", resident_id := 1 }

def visitorDataJane : VisitorData :=
  { name := "Jane", phone_number := "0700", email := none, id_number := none,
    purpose := "delivery", visit_date := 50, visit_time := 9 }

def entry1 : Blacklist :=
  { id := 1, visitor_phone := "0700", visitor_name := "Jane", resident_id := 1,
    reason := "denied", blacklisted_by := 1, is_permanent := true,
    expires_at := none, is_active := true }

def dbC9 : Db :=
  { users := [resident1, security1, admin1], visitors := [visitor1],
    visit_requests := [], blacklist := [entry1], notifications := [],
    next_visitor_id := 11, next_request_id := 101, next_blacklist_id := 2,
    next_notification_id := 1 }

def is_ok {α : Type} : Except ApiError α → Bool :=
  fun r => match r with | .ok _ => true | .error _ => false

/-- The visitor id the registration endpoint resolves for a phone number:
the existing row's id, else the id the fresh insert will receive. -/
def registration_visitor_id (db : Db) (phone : String) : Nat :=
  match db.visitors.find? (visitor_by_phone phone) with
  | some v => v.id
  | none => db.next_visitor_id

/-- The request `register_visitor id 60 dbA resident1 visitorDataJane` creates. -/
def reqSelfApproved : VisitRequest :=
  { id := 101, visitor_id := 10, resident_id := 1, visit_date := 50, visit_time := 9,
    purpose := "delivery", status := .approved, qr_code := some "visit_10_1_60",
    approved_at := some 60, denied_at := none, completed_at := none,
    cancelled_at := none, completed_by := none, is_walk_in := false,
    recorded_by := none }

/-- The request `register_visitor id 60 dbC2 resident1 visitorDataJane` creates:
a different store and request id, the same credential string. -/
def reqSelfApproved2 : VisitRequest :=
  { reqSelfApproved with id := 102 }

/-- Row 100 of `dbC2` after `approve_visit_request id 60 dbC2 resident1 100`. -/
def reqTok : VisitRequest :=
  { reqPending 100 50 with
    status := .approved, approved_at := some 60, qr_code := some "visit_10_1_60" }

/-- Jane's registration for day 52, a date with no pending duplicate in `dbC2`. -/
def regJane52 : RegistrationData :=
  { regJane with visit_date := 52 }

/-- The request `record_walk_in_entry 50 9 dbC2 security1 walkJane` creates. -/
def walkInCreated : VisitRequest :=
  { reqPending 102 50 with is_walk_in := true, recorded_by := some 2 }

end VMS

namespace Dj

def resDj : DjUser := { id := 1, user_type := "resident" }

def secDj : DjUser := { id := 2, user_type := "security" }

def adminDj : DjUser := { id := 3, user_type := "admin" }

/-- An approved request whose arrival is already recorded. -/
def vrEntered : DjVisitRequest :=
  { id := 100, visitor := 10, resident := 1, status := .approved,
    approval_date := some 40, entry_time := some 5, exit_time := none,
    security_personnel := some 2 }

def stC8 : DjState :=
  { visit_requests := [vrEntered], blacklisted := [], notifications := [],
    next_blacklist_id := 1, next_notification_id := 1 }

def blEntry : DjBlacklisted := { id := 1, visitor := 10, resident := 1, reason := "r" }

def vrPendingDj : DjVisitRequest :=
  { id := 101, visitor := 10, resident := 1, status := .pending,
    approval_date := none, entry_time := none, exit_time := none,
    security_personnel := none }

/-- Pending request whose pair already has a blacklist entry. -/
def stC2 : DjState :=
  { visit_requests := [vrPendingDj], blacklisted := [blEntry], notifications := [],
    next_blacklist_id := 2, next_notification_id := 1 }

/-- Pending request with an empty blacklist. -/
def stC2b : DjState :=
  { visit_requests := [vrPendingDj], blacklisted := [], notifications := [],
    next_blacklist_id := 1, next_notification_id := 1 }

def is_ok_dj {α : Type} : Except DjError α → Bool :=
  fun r => match r with | .ok _ => true | .error _ => false

/-- Approved request with both arrival and departure already recorded. -/
def vrExited : DjVisitRequest := { vrEntered with exit_time := some 7 }

def stC8x : DjState :=
  { visit_requests := [vrExited], blacklisted := [], notifications := [],
    next_blacklist_id := 1, next_notification_id := 1 }

def stC9 : DjState :=
  { visit_requests := [], blacklisted := [blEntry], notifications := [],
    next_blacklist_id := 2, next_notification_id := 1 }

end Dj

namespace VMS

/-! Helper lemmas shared by the claim theorems. -/

theorem add_notification_visit_requests (db : Db) (uid : Nat) (t m n : String) :
    (add_notification db uid t m n).visit_requests = db.visit_requests := rfl

theorem notify_all_visit_requests :
    ∀ (uids : List Nat) (db : Db) (t m n : String),
      (notify_all db uids t m n).visit_requests = db.visit_requests := by
  intro uids
  induction uids with
  | nil => intro db t m n; rfl
  | cons a l ih =>
    intro db t m n
    show (notify_all (add_notification db a t m n) l t m n).visit_requests = _
    rw [ih]
    rfl

theorem update_request_mem {l : List VisitRequest} {rid : Nat}
    {f : VisitRequest → VisitRequest} {w : VisitRequest}
    (hw : w ∈ update_request l rid f) (hid : w.id = rid) :
    ∃ v, v ∈ l ∧ v.id = rid ∧ w = f v := by
  have hw' : w ∈ l.map (fun vr => if vr.id = rid then f vr else vr) := hw
  rcases List.mem_map.mp hw' with ⟨v, hv, heq⟩
  by_cases hvid : v.id = rid
  · exact ⟨v, hv, hvid, by rw [← heq, if_pos hvid]⟩
  · rw [if_neg hvid] at heq
    subst heq
    exact absurd hid hvid

/-- Every successful `register_visitor` run creates the request already
`approved`, with the credential produced by applying `generate_qr_code`
to the payload built from the visitor id, the resident id and the
timestamp. -/
theorem register_visitor_ok_shape :
    ∀ (g : String → String) (now : Nat) (db : Db) (u : User) (d : VisitorData)
      (r : VisitRequest) (db' : Db),
      register_visitor g now db u d = (.ok r, db') →
      r.status = .approved ∧ r.qr_code = some (g (qr_payload r.visitor_id u.id now)) ∧
        r.approved_at = some now := by
  intro g now db u d r db' h
  unfold register_visitor at h
  split at h
  · split at h
    · simp at h
    · simp only [Prod.mk.injEq, Except.ok.injEq] at h
      obtain ⟨rfl, -⟩ := h
      exact ⟨rfl, rfl, rfl⟩
  · simp at h

end VMS

namespace VMS

/-- Every successful visitor-facing `register_visit_request` run creates
the request `pending`, with no credential. -/
theorem register_visit_request_ok_shape :
    ∀ (db : Db) (d : RegistrationData) (r : VisitRequest) (db' : Db),
      register_visit_request db d = (.ok r, db') →
      r.status = .pending ∧ r.qr_code = none ∧ r.approved_at = none := by
  intro db d r db' h
  unfold register_visit_request at h
  split at h
  · simp at h
  · split at h
    · simp at h
    · split at h
      · dsimp only at h
        cases hdup : List.find? (dup_pending db.next_visitor_id d.resident_id d.visit_date)
            db.visit_requests with
        | some e => rw [hdup] at h; simp at h
        | none =>
          rw [hdup] at h
          simp only [Prod.mk.injEq, Except.ok.injEq] at h
          obtain ⟨rfl, -⟩ := h
          exact ⟨rfl, rfl, rfl⟩
      · rename_i v hv
        dsimp only at h
        cases hdup : List.find? (dup_pending v.id d.resident_id d.visit_date)
            db.visit_requests with
        | some e => rw [hdup] at h; simp at h
        | none =>
          rw [hdup] at h
          simp only [Prod.mk.injEq, Except.ok.injEq] at h
          obtain ⟨rfl, -⟩ := h
          exact ⟨rfl, rfl, rfl⟩

/-- Every successful `record_walk_in_entry` run creates the request
`pending` with no credential, flagged as a walk-in recorded by the
acting security officer. -/
theorem record_walk_in_ok_shape :
    ∀ (now_date now_time : Nat) (db : Db) (u : User) (d : WalkInData)
      (r : VisitRequest) (db' : Db),
      record_walk_in_entry now_date now_time db u d = (.ok r, db') →
      r.status = .pending ∧ r.qr_code = none ∧ r.is_walk_in = true ∧
        r.recorded_by = some u.id := by
  intro now_date now_time db u d r db' h
  unfold record_walk_in_entry at h
  split at h
  · split at h
    · simp at h
    · split at h
      · simp at h
      · dsimp only at h
        simp only [Prod.mk.injEq, Except.ok.injEq] at h
        obtain ⟨rfl, -⟩ := h
        exact ⟨rfl, rfl, rfl, rfl⟩
  · simp at h

end VMS

namespace VMS

/-- Claim C1: Approve, Deny and Cancel are accepted only from `pending`
and Complete only from `approved`.  Invoked on a request found in any
other state, each endpoint raises the invalid-transition 400
`HTTPException` of the source (`This request has already been
processed.` / `Only pending requests can be cancelled.` / `Visit must be
approved before it can be completed.`) and returns with the database —
hence the request record, its timestamps and its credential token —
unchanged. -/
theorem C1_invalid_transition_rejected :
    (∀ (g : String → String) (now : Nat) (db : Db) (u : User) (rid : Nat)
       (vr : VisitRequest),
       u.role = "resident" → u.is_approved = true →
       db.visit_requests.find? (req_owned rid u.id) = some vr →
       vr.status ≠ .pending →
       approve_visit_request g now db u rid =
         (.error (.badRequest "This request has already been processed."), db)) ∧
    (∀ (now : Nat) (db : Db) (u : User) (rid : Nat) (vr : VisitRequest),
       u.role = "resident" → u.is_approved = true →
       db.visit_requests.find? (req_owned rid u.id) = some vr →
       vr.status ≠ .pending →
       deny_visit_request now db u rid =
         (.error (.badRequest "This request has already been processed."), db)) ∧
    (∀ (now : Nat) (db : Db) (rid : Nat) (phone : String) (vr : VisitRequest)
       (v : Visitor),
       db.visit_requests.find? (req_by_id rid) = some vr →
       db.visitors.find? (visitor_owns vr.visitor_id phone) = some v →
       vr.status ≠ .pending →
       cancel_visit_request now db rid phone =
         (.error (.badRequest "Only pending requests can be cancelled."), db)) ∧
    (∀ (now : Nat) (db : Db) (u : User) (rid : Nat) (vr : VisitRequest),
       u.role = "security" → u.is_approved = true →
       db.visit_requests.find? (req_by_id rid) = some vr →
       vr.status ≠ .approved →
       complete_visit now db u rid =
         (.error (.badRequest "Visit must be approved before it can be completed."), db)) := by
  refine ⟨?_, ?_, ?_, ?_⟩
  · intro g now db u rid vr hrole happr hfind hst
    simp [approve_visit_request, hrole, happr, hfind, hst]
  · intro now db u rid vr hrole happr hfind hst
    simp [deny_visit_request, hrole, happr, hfind, hst]
  · intro now db rid phone vr v hfind hv hst
    simp [cancel_visit_request, hfind, hv, hst]
  · intro now db u rid vr hrole happr hfind hst
    simp [complete_visit, hrole, happr, hfind, hst]

/-- Witness for C1: the already-`approved` request 100 of `dbA` cannot be
re-approved, denied or cancelled, and the `pending` request 100 of `dbC2`
cannot be completed; each call fails and leaves the store untouched. -/
theorem C1_invalid_transition_rejected_witness :
    approve_visit_request id 60 dbA resident1 100 =
      (.error (.badRequest "This request has already been processed."), dbA) ∧
    deny_visit_request 60 dbA resident1 100 =
      (.error (.badRequest "This request has already been processed."), dbA) ∧
    cancel_visit_request 60 dbA 100 "0700" =
      (.error (.badRequest "Only pending requests can be cancelled."), dbA) ∧
    complete_visit 60 dbC2 security1 100 =
      (.error (.badRequest "Visit must be approved before it can be completed."), dbC2) :=
  ⟨C1_invalid_transition_rejected.1 id 60 dbA resident1 100 reqApproved rfl rfl
     (by decide) (by decide),
   C1_invalid_transition_rejected.2.1 60 dbA resident1 100 reqApproved rfl rfl
     (by decide) (by decide),
   C1_invalid_transition_rejected.2.2.1 60 dbA 100 "0700" reqApproved visitor1
     (by decide) (by decide) (by decide),
   C1_invalid_transition_rejected.2.2.2 60 dbC2 security1 100 (reqPending 100 50) rfl rfl
     (by decide) (by decide)⟩

/-- Claim C10: verifying a credential mutates nothing — the endpoint
returns the store it was given, in every branch — so an immediate second
same-day call on the returned store gives the identical outcome: a
scanned token is not consumed. -/
theorem C10_verify_is_pure (today : Nat) (db : Db) (u : User) (qr : String) :
    (verify_visitor_qr today db u qr).2 = db ∧
    verify_visitor_qr today ((verify_visitor_qr today db u qr).2) u qr =
      verify_visitor_qr today db u qr := by
  have h2 : (verify_visitor_qr today db u qr).2 = db := by
    unfold verify_visitor_qr
    repeat' split
    all_goals rfl
  exact ⟨h2, by rw [h2]⟩

end VMS

namespace VMS

/-- Claim C5: the initial status of a freshly created visit request is
determined by the creation path.  The resident's self-approving path
(`register_visitor`) creates it directly `approved` with a credential
issued in the same operation; the visitor-facing path
(`register_visit_request`) creates it `pending` with no credential; and a
walk-in recorded by security is always created `pending` with no
credential, flagged as a walk-in and stamped with the recording officer,
regardless of the submitted visitor data. -/
theorem C5_initial_status_by_path :
    (∀ (g : String → String) (now : Nat) (db : Db) (u : User) (d : VisitorData)
       (r : VisitRequest) (db' : Db),
       register_visitor g now db u d = (.ok r, db') →
       r.status = .approved ∧ r.qr_code = some (g (qr_payload r.visitor_id u.id now)) ∧
         r.approved_at = some now) ∧
    (∀ (db : Db) (d : RegistrationData) (r : VisitRequest) (db' : Db),
       register_visit_request db d = (.ok r, db') →
       r.status = .pending ∧ r.qr_code = none ∧ r.approved_at = none) ∧
    (∀ (now_date now_time : Nat) (db : Db) (u : User) (d : WalkInData)
       (r : VisitRequest) (db' : Db),
       record_walk_in_entry now_date now_time db u d = (.ok r, db') →
       r.status = .pending ∧ r.qr_code = none ∧ r.is_walk_in = true ∧
         r.recorded_by = some u.id) :=
  ⟨register_visitor_ok_shape, register_visit_request_ok_shape, record_walk_in_ok_shape⟩

/-- Witness for C5: concrete runs of all three creation paths — the
resident path on `dbA` yields `reqSelfApproved` (approved, token issued),
the visitor path on `dbC2` yields a pending tokenless request, and a
walk-in on `dbC2` yields a pending tokenless walk-in stamped with the
recording officer. -/
theorem C5_initial_status_by_path_witness :
    (reqSelfApproved.status = .approved ∧
     reqSelfApproved.qr_code =
       some (id (qr_payload reqSelfApproved.visitor_id resident1.id 60)) ∧
     reqSelfApproved.approved_at = some 60) ∧
    ((reqPending 102 52).status = .pending ∧ (reqPending 102 52).qr_code = none ∧
     (reqPending 102 52).approved_at = none) ∧
    (walkInCreated.status = .pending ∧ walkInCreated.qr_code = none ∧
     walkInCreated.is_walk_in = true ∧ walkInCreated.recorded_by = some security1.id) :=
  ⟨C5_initial_status_by_path.1 id 60 dbA resident1 visitorDataJane reqSelfApproved
     ((register_visitor id 60 dbA resident1 visitorDataJane).2) rfl,
   C5_initial_status_by_path.2.1 dbC2 regJane52 (reqPending 102 52)
     ((register_visit_request dbC2 regJane52).2) rfl,
   C5_initial_status_by_path.2.2 50 9 dbC2 security1 walkJane walkInCreated
     ((record_walk_in_entry 50 9 dbC2 security1 walkJane).2) rfl⟩

end VMS

namespace VMS

/-- Counterexample to claim C2: `dbC2` holds two pending requests (100 and
101) of the same visitor 10 to the same resident 1.  Both denials succeed,
and afterwards the ledger holds two active blacklist entries for the pair
`("0700", 1)` — the FastAPI `deny_visit_request` inserts unconditionally,
so two Deny invocations for the same pair do produce two active entries. -/
theorem C2_counterexample :
    is_ok (deny_visit_request 55 dbC2 resident1 100).1 = true ∧
    is_ok (deny_visit_request 60 (deny_visit_request 55 dbC2 resident1 100).2
      resident1 101).1 = true ∧
    ((deny_visit_request 60 (deny_visit_request 55 dbC2 resident1 100).2
        resident1 101).2.blacklist.filter (blacklist_gate "0700" 1)).length = 2 := by
  refine ⟨rfl, rfl, rfl⟩

/-- Claim C2 amended: denying a pending request does atomically create an
active BlacklistEntry for the pair in the same returned state as the
status change, but only the Django implementation's insert is idempotent.
In `app/api/resident.py` the entry is appended unconditionally (so a
second denial for the same pair duplicates it), while in
`apps/visitors/views.py` `get_or_create` reuses an existing entry for the
pair unchanged — first reason wins — and inserts with the supplied reason
only when the pair has no entry yet. -/
theorem C2_deny_blacklist_behaviour :
    (∀ (now : Nat) (db : Db) (u : User) (rid : Nat) (vr : VisitRequest) (v : Visitor),
       u.role = "resident" → u.is_approved = true →
       db.visit_requests.find? (req_owned rid u.id) = some vr →
       vr.status = .pending →
       db.visitors.find? (visitor_by_id vr.visitor_id) = some v →
       deny_visit_request now db u rid =
         (.ok "Visit request denied and visitor blacklisted",
          { db with
            visit_requests := update_request db.visit_requests rid
              (fun w => { w with status := .denied, denied_at := some now }),
            blacklist := db.blacklist ++
              [{ id := db.next_blacklist_id, visitor_phone := v.phone_number,
                 visitor_name := v.name, resident_id := u.id,
                 reason := "Visit request denied by resident",
                 blacklisted_by := u.id, is_permanent := true,
                 expires_at := none, is_active := true }],
            next_blacklist_id := db.next_blacklist_id + 1 })) ∧
    (∀ (st : Dj.DjState) (u : Dj.DjUser) (pk : Nat) (vr : Dj.DjVisitRequest)
       (reason_arg : Option String) (e : Dj.DjBlacklisted),
       st.visit_requests.find? (Dj.vr_by_pk pk) = some vr →
       ¬(u.user_type = "resident" ∧ vr.resident ≠ u.id) →
       vr.status = .pending →
       st.blacklisted.find? (Dj.bl_pair vr.visitor vr.resident) = some e →
       Dj.is_ok_dj (Dj.deny_visit_request st u pk reason_arg).1 = true ∧
       (Dj.deny_visit_request st u pk reason_arg).2.blacklisted = st.blacklisted) ∧
    (∀ (st : Dj.DjState) (u : Dj.DjUser) (pk : Nat) (vr : Dj.DjVisitRequest)
       (reason_arg : Option String),
       st.visit_requests.find? (Dj.vr_by_pk pk) = some vr →
       ¬(u.user_type = "resident" ∧ vr.resident ≠ u.id) →
       vr.status = .pending →
       st.blacklisted.find? (Dj.bl_pair vr.visitor vr.resident) = none →
       (Dj.deny_visit_request st u pk reason_arg).2.blacklisted =
         st.blacklisted ++
           [{ id := st.next_blacklist_id, visitor := vr.visitor,
              resident := vr.resident,
              reason := reason_arg.getD "Visit request denied" }]) := by
  refine ⟨?_, ?_, ?_⟩
  · intro now db u rid vr v hrole happr hfind hst hv
    simp [deny_visit_request, hrole, happr, hfind, hst, hv]
  · intro st u pk vr reason_arg e hfind hperm hst hpair
    simp [Dj.deny_visit_request, hfind, hperm, hst, hpair, Dj.is_ok_dj]
  · intro st u pk vr reason_arg hfind hperm hst hpair
    simp [Dj.deny_visit_request, hfind, hperm, hst, hpair]

/-- Witness for the amended C2: denying pending request 100 of `dbC2`
appends the active entry; the Django denial on `stC2` (pair already
listed) leaves the ledger unchanged, and on `stC2b` (pair unlisted)
inserts the supplied reason. -/
theorem C2_deny_blacklist_behaviour_witness :
    deny_visit_request 55 dbC2 resident1 100 =
      (.ok "Visit request denied and visitor blacklisted",
       { dbC2 with
         visit_requests := update_request dbC2.visit_requests 100
           (fun w => { w with status := .denied, denied_at := some 55 }),
         blacklist := dbC2.blacklist ++
           [{ id := dbC2.next_blacklist_id, visitor_phone := visitor1.phone_number,
              visitor_name := visitor1.name, resident_id := resident1.id,
              reason := "Visit request denied by resident",
              blacklisted_by := resident1.id, is_permanent := true,
              expires_at := none, is_active := true }],
         next_blacklist_id := dbC2.next_blacklist_id + 1 }) ∧
    (Dj.is_ok_dj (Dj.deny_visit_request Dj.stC2 Dj.resDj 101 (some "nope")).1 = true ∧
     (Dj.deny_visit_request Dj.stC2 Dj.resDj 101 (some "nope")).2.blacklisted =
       Dj.stC2.blacklisted) ∧
    (Dj.deny_visit_request Dj.stC2b Dj.resDj 101 (some "nope")).2.blacklisted =
      Dj.stC2b.blacklisted ++
        [{ id := Dj.stC2b.next_blacklist_id, visitor := Dj.vrPendingDj.visitor,
           resident := Dj.vrPendingDj.resident,
           reason := (some "nope").getD "Visit request denied" }] :=
  ⟨C2_deny_blacklist_behaviour.1 55 dbC2 resident1 100 (reqPending 100 50) visitor1
     rfl rfl (by decide) rfl (by decide),
   C2_deny_blacklist_behaviour.2.1 Dj.stC2 Dj.resDj 101 Dj.vrPendingDj
     (some "nope") Dj.blEntry (by decide) (by decide) rfl (by decide),
   C2_deny_blacklist_behaviour.2.2 Dj.stC2b Dj.resDj 101 Dj.vrPendingDj
     (some "nope") (by decide) (by decide) rfl (by decide)⟩

end VMS

namespace VMS

/-- Claim C3 vs the code: `expiredEntry` is `is_active` but time-bounded
with `expires_at = 10`, so at `now = 20` the model's own validity
predicate (`Blacklist.is_valid`, the spec's IsBlacklisted) calls it
invalid — yet the creation gates of `visitor.py` and `security.py`
filter on `is_active` alone, so both Create and RecordWalkIn still fail
with the blacklist error and create nothing. -/
theorem C3_expired_entry_still_blocks :
    Blacklist.is_valid 20 expiredEntry = false ∧
    blacklist_gate "0700" 1 expiredEntry = true ∧
    register_visit_request dbC3 regJane =
      (.error (.badRequest "You are blacklisted and cannot request a visit to this resident."),
       dbC3) ∧
    record_walk_in_entry 20 21 dbC3 security1 walkJane =
      (.error (.badRequest "This visitor is blacklisted for this resident."), dbC3) :=
  ⟨rfl, rfl, rfl, rfl⟩

/-- Counterexample to claim C4: complete the approved same-day request 100
of `dbA`, then verify.  The presented token "T1" is still carried by the
(now completed) request, yet verification fails with exactly the same 404
error as the totally unknown token "ZZZ" — the code cannot distinguish
`NotApproved` from `NotFound`. -/
theorem C4_counterexample :
    verify_visitor_qr 50 (complete_visit 60 dbA security1 100).2 security1 "T1" =
      (.error (.notFound "Invalid QR code or visit not approved."),
       (complete_visit 60 dbA security1 100).2) ∧
    verify_visitor_qr 50 (complete_visit 60 dbA security1 100).2 security1 "ZZZ" =
      (.error (.notFound "Invalid QR code or visit not approved."),
       (complete_visit 60 dbA security1 100).2) ∧
    (complete_visit 60 dbA security1 100).2.visit_requests.find? (req_by_id 100) =
      some { reqApproved with
             status := .completed, completed_at := some 60, completed_by := some 2 } :=
  ⟨rfl, rfl, rfl⟩

/-- Claim C4 amended: Verify succeeds with the bound visitor/resident/
request exactly when some request carries the token with status
`approved` and its date is today.  Otherwise it fails with only two
distinguishable errors: the 404 `Invalid QR code or visit not approved.`
covers both an unknown token and a token whose request has left
`approved` (in particular immediately after Complete), and the 400
`This visit is not scheduled for today.` fires when the approved request
is dated another day. -/
theorem C4_verify_two_errors :
    ∀ (today : Nat) (db : Db) (u : User) (qr : String),
      u.role = "security" → u.is_approved = true →
      (db.visit_requests.find? (approved_by_qr qr) = none →
        verify_visitor_qr today db u qr =
          (.error (.notFound "Invalid QR code or visit not approved."), db)) ∧
      (∀ vr, db.visit_requests.find? (approved_by_qr qr) = some vr →
        (vr.visit_date ≠ today →
          verify_visitor_qr today db u qr =
            (.error (.badRequest "This visit is not scheduled for today."), db)) ∧
        (vr.visit_date = today →
          verify_visitor_qr today db u qr =
            (.ok { visitor := db.visitors.find? (visitor_by_id vr.visitor_id),
                   resident := db.users.find? (user_by_id vr.resident_id),
                   visit_request := vr }, db))) := by
  intro today db u qr hrole happr
  constructor
  · intro hnone
    simp [verify_visitor_qr, hrole, happr, hnone]
  · intro vr hfind
    constructor
    · intro hne
      simp [verify_visitor_qr, hrole, happr, hfind, hne]
    · intro heq
      simp [verify_visitor_qr, hrole, happr, hfind, heq]

/-- Witness for the amended C4: on `dbA` the same-day token "T1" verifies
to the bound tuple, the unknown token "ZZZ" yields the 404, and on day 51
the known token yields the wrong-day 400. -/
theorem C4_verify_two_errors_witness :
    verify_visitor_qr 50 dbA security1 "T1" =
      (.ok { visitor := dbA.visitors.find? (visitor_by_id reqApproved.visitor_id),
             resident := dbA.users.find? (user_by_id reqApproved.resident_id),
             visit_request := reqApproved }, dbA) ∧
    verify_visitor_qr 50 dbA security1 "ZZZ" =
      (.error (.notFound "Invalid QR code or visit not approved."), dbA) ∧
    verify_visitor_qr 51 dbA security1 "T1" =
      (.error (.badRequest "This visit is not scheduled for today."), dbA) :=
  ⟨((C4_verify_two_errors 50 dbA security1 "T1" rfl rfl).2 reqApproved (by decide)).2 rfl,
   (C4_verify_two_errors 50 dbA security1 "ZZZ" rfl rfl).1 (by decide),
   ((C4_verify_two_errors 51 dbA security1 "T1" rfl rfl).2 reqApproved (by decide)).1
     (by decide)⟩

end VMS

namespace VMS

/-- Counterexample to claim C6: `dbA` already holds the `approved` request
100 for the tuple (visitor 10, resident 1, date 50), yet registering the
same tuple again succeeds and inserts a second live request — the
duplicate guard of `visitor.py` filters on status `pending` only, so an
approved duplicate raises no Conflict. -/
theorem C6_counterexample :
    dbA.visit_requests.find?
      (fun vr => decide (vr.visitor_id = 10 ∧ vr.resident_id = 1 ∧
        vr.visit_date = 50 ∧ vr.status = VisitStatus.approved)) = some reqApproved ∧
    is_ok (register_visit_request dbA regJane).1 = true ∧
    (register_visit_request dbA regJane).2.visit_requests.length = 2 :=
  ⟨rfl, rfl, rfl⟩

/-- Claim C6 amended: creation raises the duplicate Conflict, inserting
nothing, exactly when an existing `pending` request matches the
(visitor, resident, scheduled-date) tuple; requests in `approved` (or any
terminal) status never block, so with no pending duplicate the insert
succeeds and appends exactly one new request. -/
theorem C6_conflict_on_pending_duplicate_only :
    (∀ (db : Db) (d : RegistrationData) (u0 : User) (e : VisitRequest),
       db.users.find? (approved_resident d.resident_id) = some u0 →
       db.blacklist.find? (blacklist_gate d.phone_number d.resident_id) = none →
       db.visit_requests.find?
         (dup_pending (registration_visitor_id db d.phone_number) d.resident_id
           d.visit_date) = some e →
       register_visit_request db d =
         (.error (.badRequest "You already have a pending request for this date with this resident."),
          db)) ∧
    (∀ (db : Db) (d : RegistrationData) (u0 : User),
       db.users.find? (approved_resident d.resident_id) = some u0 →
       db.blacklist.find? (blacklist_gate d.phone_number d.resident_id) = none →
       db.visit_requests.find?
         (dup_pending (registration_visitor_id db d.phone_number) d.resident_id
           d.visit_date) = none →
       is_ok (register_visit_request db d).1 = true ∧
       (register_visit_request db d).2.visit_requests.length =
         db.visit_requests.length + 1) := by
  constructor
  · intro db d u0 e hu hgate hdup
    cases hv : db.visitors.find? (visitor_by_phone d.phone_number) with
    | some v =>
      simp only [registration_visitor_id, hv] at hdup
      simp [register_visit_request, hu, hgate, hv, hdup]
    | none =>
      simp only [registration_visitor_id, hv] at hdup
      simp [register_visit_request, hu, hgate, hv, hdup]
  · intro db d u0 hu hgate hdup
    cases hv : db.visitors.find? (visitor_by_phone d.phone_number) with
    | some v =>
      simp only [registration_visitor_id, hv] at hdup
      simp [register_visit_request, hu, hgate, hv, hdup, is_ok, add_notification]
    | none =>
      simp only [registration_visitor_id, hv] at hdup
      simp [register_visit_request, hu, hgate, hv, hdup, is_ok, add_notification]

/-- Witness for the amended C6: on `dbC2` (pending duplicate for day 50)
the registration raises the Conflict and leaves the store unchanged; on
`dbA` (only an approved request for the tuple) it succeeds and appends
exactly one request. -/
theorem C6_conflict_on_pending_duplicate_only_witness :
    register_visit_request dbC2 regJane =
      (.error (.badRequest "You already have a pending request for this date with this resident."),
       dbC2) ∧
    (is_ok (register_visit_request dbA regJane).1 = true ∧
     (register_visit_request dbA regJane).2.visit_requests.length =
       dbA.visit_requests.length + 1) :=
  ⟨C6_conflict_on_pending_duplicate_only.1 dbC2 regJane resident1 (reqPending 100 50)
     (by decide) (by decide) (by decide),
   C6_conflict_on_pending_duplicate_only.2 dbA regJane resident1
     (by decide) (by decide) (by decide)⟩

end VMS

namespace VMS

/-- Claim C7 vs the code: every credential issued on entering `approved`
is `generate_qr_code` applied to the payload `visit_<visitor id>_<resident
id>_<timestamp>` — predictable fields only, no random source.  Hence,
whatever (deterministic) encoding the missing `generate_qr_code`
performs, the approval path stamps the row with a token that is a
function of `(visitor_id, resident_id, timestamp)`, and two
`register_visitor` issuances with identical visible inputs produce
identical tokens. -/
theorem C7_token_is_function_of_predictable_fields :
    (∀ (g : String → String) (now : Nat) (db : Db) (u : User) (rid : Nat)
       (vr w : VisitRequest),
       u.role = "resident" → u.is_approved = true →
       db.visit_requests.find? (req_owned rid u.id) = some vr →
       vr.status = .pending →
       w ∈ (approve_visit_request g now db u rid).2.visit_requests →
       w.id = rid →
       w.qr_code = some (g (qr_payload w.visitor_id u.id now))) ∧
    (∀ (g : String → String) (now : Nat) (db1 : Db) (u1 : User) (d1 : VisitorData)
       (r1 : VisitRequest) (db1' : Db) (db2 : Db) (u2 : User) (d2 : VisitorData)
       (r2 : VisitRequest) (db2' : Db),
       register_visitor g now db1 u1 d1 = (.ok r1, db1') →
       register_visitor g now db2 u2 d2 = (.ok r2, db2') →
       r1.visitor_id = r2.visitor_id → u1.id = u2.id →
       r1.qr_code = r2.qr_code) := by
  constructor
  · intro g now db u rid vr w hrole happr hfind hst hw hid
    have hvr : (approve_visit_request g now db u rid).2.visit_requests =
        update_request db.visit_requests rid
          (fun w =>
            { w with
              status := .approved, approved_at := some now,
              qr_code := some (g (qr_payload w.visitor_id u.id now)) }) := by
      simp only [approve_visit_request, hrole, happr, hfind, hst]
      simp only [if_pos, ite_true, eq_self_iff_true, and_self, if_true]
      split
      · rfl
      · rw [notify_all_visit_requests]
    rw [hvr] at hw
    obtain ⟨v, hvmem, hvid, rfl⟩ := update_request_mem hw hid
    rfl
  · intro g now db1 u1 d1 r1 db1' db2 u2 d2 r2 db2' h1 h2 hvis hid
    obtain ⟨-, hq1, -⟩ := register_visitor_ok_shape g now db1 u1 d1 r1 db1' h1
    obtain ⟨-, hq2, -⟩ := register_visitor_ok_shape g now db2 u2 d2 r2 db2' h2
    rw [hq1, hq2, hvis, hid]

/-- Witness for C7: approving request 100 of `dbC2` stamps the row with
the deterministic token of `(10, 1, 60)`, and two `register_visitor`
issuances on different stores (`dbA`, `dbC2`) with the same visitor,
resident and timestamp yield distinct requests carrying the identical
credential. -/
theorem C7_token_is_function_of_predictable_fields_witness :
    reqTok.qr_code = some (id (qr_payload reqTok.visitor_id resident1.id 60)) ∧
    reqSelfApproved.qr_code = reqSelfApproved2.qr_code :=
  ⟨C7_token_is_function_of_predictable_fields.1 id 60 dbC2 resident1 100
     (reqPending 100 50) reqTok rfl rfl (by decide) rfl (by decide) (by decide),
   C7_token_is_function_of_predictable_fields.2 id 60 dbA resident1 visitorDataJane
     reqSelfApproved ((register_visitor id 60 dbA resident1 visitorDataJane).2)
     dbC2 resident1 visitorDataJane reqSelfApproved2
     ((register_visitor id 60 dbC2 resident1 visitorDataJane).2) rfl rfl rfl rfl⟩

end VMS

namespace Dj

/-- Counterexample to claim C8: request 100 of `stC8` is `approved` and
already carries the arrival stamp `5`, so per the claim RecordArrival
must fail — yet `record_entry` succeeds and silently overwrites the
arrival (and the recording officer). -/
theorem C8_counterexample :
    vrEntered.entry_time = some 5 ∧
    (record_entry 9 stC8 secDj 100).1 = .ok () ∧
    (record_entry 9 stC8 secDj 100).2.visit_requests =
      [{ vrEntered with entry_time := some 9, security_personnel := some secDj.id }] :=
  ⟨rfl, rfl, rfl⟩

/-- Claim C8 amended: `record_entry` succeeds whenever the request is
`approved` — even when an arrival is already recorded, which it
overwrites together with the recording officer — and fails (store
unchanged) otherwise; `record_exit` succeeds only when an arrival is
recorded and no departure is, so the departure stamp is set at most once
and never without a prior arrival. -/
theorem C8_arrival_departure_gating :
    (∀ (now : Nat) (st : DjState) (u : DjUser) (pk : Nat) (vr : DjVisitRequest),
       st.visit_requests.find? (vr_by_pk pk) = some vr →
       vr.status = .approved →
       record_entry now st u pk =
         (.ok (),
          { st with
            visit_requests := update_vr st.visit_requests pk
              (fun w =>
                { w with entry_time := some now, security_personnel := some u.id }) })) ∧
    (∀ (now : Nat) (st : DjState) (u : DjUser) (pk : Nat) (vr : DjVisitRequest),
       st.visit_requests.find? (vr_by_pk pk) = some vr →
       vr.status ≠ .approved →
       record_entry now st u pk =
         (.error (.badRequest "Visit request must be approved first"), st)) ∧
    (∀ (now : Nat) (st : DjState) (pk : Nat) (vr : DjVisitRequest),
       st.visit_requests.find? (vr_by_pk pk) = some vr →
       vr.entry_time = none →
       record_exit now st pk =
         (.error (.badRequest "Visitor must have entered first"), st)) ∧
    (∀ (now : Nat) (st : DjState) (pk : Nat) (vr : DjVisitRequest) (t s : Nat),
       st.visit_requests.find? (vr_by_pk pk) = some vr →
       vr.entry_time = some t → vr.exit_time = some s →
       record_exit now st pk =
         (.error (.badRequest "Exit time already recorded"), st)) ∧
    (∀ (now : Nat) (st : DjState) (pk : Nat) (vr : DjVisitRequest) (t : Nat),
       st.visit_requests.find? (vr_by_pk pk) = some vr →
       vr.entry_time = some t → vr.exit_time = none →
       record_exit now st pk =
         (.ok (),
          { st with
            visit_requests := update_vr st.visit_requests pk
              (fun w => { w with exit_time := some now }) })) := by
  refine ⟨?_, ?_, ?_, ?_, ?_⟩
  · intro now st u pk vr hfind hst
    simp [record_entry, hfind, hst]
  · intro now st u pk vr hfind hst
    simp [record_entry, hfind, hst]
  · intro now st pk vr hfind hentry
    simp [record_exit, hfind, hentry]
  · intro now st pk vr t s hfind hentry hexit
    simp [record_exit, hfind, hentry, hexit]
  · intro now st pk vr t hfind hentry hexit
    simp [record_exit, hfind, hentry, hexit]

/-- Witness for the amended C8: on `stC8` (arrival 5 already set)
re-recording the arrival succeeds and overwrites; recording the exit
succeeds once and sets it; on `stC8x` (exit already set) a second exit is
refused; on `stC2b` (pending request, no arrival) both entry and exit are
refused. -/
theorem C8_arrival_departure_gating_witness :
    record_entry 9 stC8 secDj 100 =
      (.ok (),
       { stC8 with
         visit_requests := update_vr stC8.visit_requests 100
           (fun w =>
             { w with entry_time := some 9, security_personnel := some secDj.id }) }) ∧
    record_entry 9 stC2b secDj 101 =
      (.error (.badRequest "Visit request must be approved first"), stC2b) ∧
    record_exit 12 stC2b 101 =
      (.error (.badRequest "Visitor must have entered first"), stC2b) ∧
    record_exit 12 stC8x 100 =
      (.error (.badRequest "Exit time already recorded"), stC8x) ∧
    record_exit 12 stC8 100 =
      (.ok (),
       { stC8 with
         visit_requests := update_vr stC8.visit_requests 100
           (fun w => { w with exit_time := some 12 }) }) :=
  ⟨C8_arrival_departure_gating.1 9 stC8 secDj 100 vrEntered rfl rfl,
   C8_arrival_departure_gating.2.1 9 stC2b secDj 101 vrPendingDj rfl (by decide),
   C8_arrival_departure_gating.2.2.1 12 stC2b 101 vrPendingDj rfl rfl,
   C8_arrival_departure_gating.2.2.2.1 12 stC8x 100 vrExited 5 7 rfl rfl rfl,
   C8_arrival_departure_gating.2.2.2.2 12 stC8 100 vrEntered 5 rfl rfl rfl⟩

end Dj

namespace VMS

/-- Counterexample to claim C9: both cited Remove implementations
physically delete the row.  Removing entry 1 succeeds in the FastAPI
admin endpoint and in the Django view, and afterwards no record with
that id is retrievable from either store. -/
theorem C9_counterexample :
    remove_from_blacklist dbC9 admin1 1 =
      (.ok "Visitor removed from blacklist successfully",
       { dbC9 with blacklist := [] }) ∧
    (remove_from_blacklist dbC9 admin1 1).2.blacklist.find? (blacklist_by_id 1) =
      none ∧
    (Dj.remove_from_blacklist Dj.stC9 Dj.adminDj 1).1 = .ok () ∧
    (Dj.remove_from_blacklist Dj.stC9 Dj.adminDj 1).2.blacklisted.find?
      (Dj.bl_by_pk 1) = none :=
  ⟨rfl, rfl, rfl, rfl⟩

/-- Claim C9 amended: Remove physically deletes the blacklist row rather
than setting removal fields: the resulting store is the old one with
exactly the rows carrying the removed id filtered out, so the removed id
is no longer retrievable while every entry with a different id persists
unchanged (no removal metadata is ever written). -/
theorem C9_remove_deletes_row :
    (∀ (db : Db) (u : User) (bid : Nat) (e : Blacklist),
       u.role = "admin" →
       db.blacklist.find? (blacklist_by_id bid) = some e →
       remove_from_blacklist db u bid =
         (.ok "Visitor removed from blacklist successfully",
          { db with
            blacklist := db.blacklist.filter (fun b => !(blacklist_by_id bid b)) }) ∧
       ∀ b, b ∈ db.blacklist → b.id ≠ bid →
         b ∈ (remove_from_blacklist db u bid).2.blacklist) ∧
    (∀ (st : Dj.DjState) (u : Dj.DjUser) (pk : Nat) (b0 : Dj.DjBlacklisted),
       st.blacklisted.find? (Dj.bl_by_pk pk) = some b0 →
       ¬(u.user_type = "resident" ∧ b0.resident ≠ u.id) →
       Dj.remove_from_blacklist st u pk =
         (.ok (),
          { st with
            blacklisted := st.blacklisted.filter (fun e => !(Dj.bl_by_pk pk e)) }) ∧
       ∀ b, b ∈ st.blacklisted → b.id ≠ pk →
         b ∈ (Dj.remove_from_blacklist st u pk).2.blacklisted) := by
  constructor
  · intro db u bid e hrole hfind
    have heq : remove_from_blacklist db u bid =
        (.ok "Visitor removed from blacklist successfully",
         { db with
           blacklist := db.blacklist.filter (fun b => !(blacklist_by_id bid b)) }) := by
      simp [remove_from_blacklist, hrole, hfind]
    refine ⟨heq, ?_⟩
    intro b hb hne
    rw [heq]
    simp [List.mem_filter, blacklist_by_id, hne, hb]
  · intro st u pk b0 hfind hperm
    have heq : Dj.remove_from_blacklist st u pk =
        (.ok (),
         { st with
           blacklisted := st.blacklisted.filter (fun e => !(Dj.bl_by_pk pk e)) }) := by
      simp [Dj.remove_from_blacklist, hfind, hperm]
    refine ⟨heq, ?_⟩
    intro b hb hne
    rw [heq]
    simp [List.mem_filter, Dj.bl_by_pk, hne, hb]

/-- Witness for the amended C9: removing entry 1 from `dbC9` (as admin)
and from `stC9` (Django) returns the stores with the row filtered out. -/
theorem C9_remove_deletes_row_witness :
    remove_from_blacklist dbC9 admin1 1 =
      (.ok "Visitor removed from blacklist successfully",
       { dbC9 with
         blacklist := dbC9.blacklist.filter (fun b => !(blacklist_by_id 1 b)) }) ∧
    Dj.remove_from_blacklist Dj.stC9 Dj.adminDj 1 =
      (.ok (),
       { Dj.stC9 with
         blacklisted := Dj.stC9.blacklisted.filter (fun e => !(Dj.bl_by_pk 1 e)) }) :=
  ⟨(C9_remove_deletes_row.1 dbC9 admin1 1 entry1 rfl (by decide)).1,
   (C9_remove_deletes_row.2 Dj.stC9 Dj.adminDj 1 Dj.blEntry (by decide) (by decide)).1⟩

end VMS
